import Mathlib

/-!
Shallow embedding of the ledger/accounting core of the pledge-receipt
management backend, together with theorems settling the specification
claims about it.

Monetary amounts are modelled as rationals; all the amounts involved in
the claims are exactly representable, so no floating-point rounding is
at issue.  Database state is modelled as explicit lists of rows; a
posting routine is a pure function from the relevant rows and the
business object to the return value together with the rows it commits.
-/

namespace PledgeSystem

/-! ## Calendar model (Python `datetime.date`)

`PyDate` mirrors a Python `date` triple.  Python raises `ValueError`
when `date(y, m, d)` is constructed with an invalid day or a year
outside `MINYEAR = 1 .. MAXYEAR = 9999`, so every construction site in
the source is modelled by a validity check; constructing an invalid
date maps to `Option.none`. -/

structure PyDate where
  year : ℕ
  month : ℕ
  day : ℕ
deriving DecidableEq, Repr

/-- Gregorian leap-year rule, as in Python's `calendar.isleap`. -/
def isLeapYear (y : ℕ) : Bool :=
  (y % 4 == 0 && y % 100 != 0) || (y % 400 == 0)

/-- Days in a Gregorian month. -/
def daysInMonth (y m : ℕ) : ℕ :=
  if m = 2 then (if isLeapYear y then 29 else 28)
  else if m = 4 ∨ m = 6 ∨ m = 9 ∨ m = 11 then 30
  else 31

/-- Whether `date(year, month, day)` would construct without raising:
Python bounds the year by `MINYEAR = 1` and `MAXYEAR = 9999` and the
day by the month's length. -/
def isValidDate (d : PyDate) : Bool :=
  (1 ≤ d.year) && (d.year ≤ 9999) && (1 ≤ d.month) && (d.month ≤ 12) &&
    (1 ≤ d.day) && (d.day ≤ daysInMonth d.year d.month)

/-- Days strictly before year `y` in the proleptic Gregorian calendar
(as in Python's `date.toordinal`). -/
def daysBeforeYear (y : ℕ) : ℕ :=
  365 * (y - 1) + (y - 1) / 4 + (y - 1) / 400 - (y - 1) / 100

/-- Days in year `y` strictly before month `m` (CPython's
`_DAYS_BEFORE_MONTH` table plus the leap-day correction). -/
def daysBeforeMonth (y m : ℕ) : ℕ :=
  (if m = 1 then 0 else if m = 2 then 31 else if m = 3 then 59
    else if m = 4 then 90 else if m = 5 then 120 else if m = 6 then 151
    else if m = 7 then 181 else if m = 8 then 212 else if m = 9 then 243
    else if m = 10 then 273 else if m = 11 then 304 else 334)
  + (if 2 < m ∧ isLeapYear y = true then 1 else 0)

/-- Python's `date.toordinal`: day count from 0001-01-01 (= ordinal 1). -/
def toOrdinal (d : PyDate) : ℕ :=
  daysBeforeYear d.year + daysBeforeMonth d.year d.month + d.day

/-- Python's `date` comparison `a <= b` (lexicographic on (y, m, d)). -/
def pyDateLe (a b : PyDate) : Bool :=
  decide (a.year < b.year) ||
    (decide (a.year = b.year) &&
      (decide (a.month < b.month) ||
        (decide (a.month = b.month) && decide (a.day ≤ b.day))))

/-- Python's `date` comparison `a < b` (lexicographic on (y, m, d)). -/
def pyDateLt (a b : PyDate) : Bool :=
  decide (a.year < b.year) ||
    (decide (a.year = b.year) &&
      (decide (a.month < b.month) ||
        (decide (a.month = b.month) && decide (a.day < b.day))))

/-- The month-stepping of `calculate_interest_outstanding`: keep the
day-of-month, advance the month, rolling December into January of the
next year.  The source constructs this triple with `date(...)`, which
raises when the day does not exist in the target month; validity is
checked at each use site. -/
def nextMonthDate (d : PyDate) : PyDate :=
  if d.month == 12 then ⟨d.year + 1, 1, d.day⟩ else ⟨d.year, d.month + 1, d.day⟩

/-- Month index used only for fuel bookkeeping of the accrual loop. -/
def monthIdx (d : PyDate) : ℕ := 12 * d.year + d.month

/-! ## Interest accrual calculator
(`app/routes/receipts.py`, `calculate_interest_outstanding`)

The `while current_month_start <= calculation_date` loop is embedded
with explicit fuel; `interestLoopFuel` below strictly dominates the
number of iterations (each iteration advances `monthIdx` by one, and
the loop only recurses while `monthIdx` stays at most the calculation
date's, see `interestLoop_isSome`), so the fuel never cuts a run
short.  A `none` result models an uncaught `ValueError` from an
invalid date construction. -/

def interestLoop (calcDate : PyDate) (loan_amount interest_rate : ℚ) :
    ℕ → PyDate → ℚ → Option ℚ
  | 0, _, _ => none
  | fuel + 1, current_month_start, total_interest_due =>
    if pyDateLe current_month_start calcDate then
      if isValidDate (nextMonthDate current_month_start) then
        if pyDateLt calcDate (nextMonthDate current_month_start) then
          let days_in_period : ℤ :=
            (toOrdinal calcDate : ℤ) - (toOrdinal current_month_start : ℤ) + 1
          let month_interest : ℚ :=
            if days_in_period ≤ 15 then
              loan_amount * interest_rate / 100 * (1 / 2)
            else
              loan_amount * interest_rate / 100
          some (total_interest_due + month_interest)
        else
          interestLoop calcDate loan_amount interest_rate fuel
            (nextMonthDate current_month_start)
            (total_interest_due + loan_amount * interest_rate / 100)
      else none
    else some total_interest_due

/-- Fuel that provably dominates the iteration count of the loop. -/
def interestLoopFuel (calcDate first : PyDate) : ℕ :=
  monthIdx calcDate + 2 - monthIdx first + 1

/-- `calculate_interest_outstanding(pledge_date, calculation_date,
loan_amount, interest_rate, first_month_interest,
total_interest_received)` from `app/routes/receipts.py`.  `none` models
the `ValueError` raised when stepping the pledge day into a month that
is too short. -/
def calculate_interest_outstanding (pledge_date calculation_date : PyDate)
    (loan_amount interest_rate first_month_interest
      total_interest_received : ℚ) : Option ℚ :=
  if isValidDate (nextMonthDate pledge_date) then
    match interestLoop calculation_date loan_amount interest_rate
        (interestLoopFuel calculation_date (nextMonthDate pledge_date))
        (nextMonthDate pledge_date) first_month_interest with
    | some total_interest_due =>
        let interest_outstanding := total_interest_due - total_interest_received
        some (if 0 < interest_outstanding then interest_outstanding else 0)
    | none => none
  else none

/-! ## Chart of accounts and ledger rows

`ChartOfAccounts` rows carry only the fields the posting routines read;
`LedgerEntries` rows carry the fields the claims are about.  The
`transaction_type` column only ever holds the strings `"Debit"` and
`"Credit"`, modelled as an inductive type. -/

structure COAccount where
  id : ℕ
  company_id : ℕ
  account_code : String
deriving DecidableEq, Repr

inductive TxnType where
  | Debit
  | Credit
deriving DecidableEq, Repr

structure LedgerEntryRec where
  company_id : ℕ
  account_id : ℕ
  transaction_date : PyDate
  transaction_type : TxnType
  amount : ℚ
  reference_type : String
  reference_id : ℕ
  created_by : ℕ
deriving DecidableEq, Repr

/-- `db.query(ChartOfAccounts).filter(account_code == code,
company_id == cid).first()`. -/
def findByCode (accounts : List COAccount) (code : String) (cid : ℕ) :
    Option COAccount :=
  accounts.find? (fun a => a.account_code == code && a.company_id == cid)

/-- `db.query(ChartOfAccounts).filter(ChartOfAccounts.id == aid).first()`
(note: no company filter, as in the source). -/
def findById (accounts : List COAccount) (aid : ℕ) : Option COAccount :=
  accounts.find? (fun a => a.id == aid)

/-- Python's `str(n).zfill(4)`. -/
def zfill4 (n : ℕ) : String :=
  let s := toString n
  String.mk (List.replicate (4 - s.length) '0') ++ s

/-- Total of the Debit rows of a list of ledger entries. -/
def sumDebits (entries : List LedgerEntryRec) : ℚ :=
  (entries.map (fun e =>
    if e.transaction_type = TxnType.Debit then e.amount else 0)).sum

/-- Total of the Credit rows of a list of ledger entries. -/
def sumCredits (entries : List LedgerEntryRec) : ℚ :=
  (entries.map (fun e =>
    if e.transaction_type = TxnType.Credit then e.amount else 0)).sum

/-! ## Pledge posting and reversal (`app/pledge_utils.py`) -/

structure PledgeRec where
  id : ℕ
  customer_id : ℕ
  pledge_no : String
  pledge_date : PyDate
  maximum_value : ℚ
  loan_amount : ℚ
  first_month_interest : ℚ
  payment_account_id : Option ℕ
deriving DecidableEq, Repr

/-- `create_pledge_ledger_entries(db, pledge, company_id,
created_by_id)`.  Returns the Python return value paired with the list
of ledger rows the call commits.  Each lookup that fails silently skips
its entry, exactly as the source's `if account:` guards do; the final
`db.commit()` always runs, so the function returns `True` with whatever
subset of entries resolved. -/
def create_pledge_ledger_entries (accounts : List COAccount)
    (pledge : PledgeRec) (company_id created_by_id : ℕ) :
    Bool × List LedgerEntryRec :=
  let pledge_date := pledge.pledge_date
  let entries1 :=
    match findByCode accounts "1040" company_id with
    | some pledged_items_account =>
        [⟨company_id, pledged_items_account.id, pledge_date, TxnType.Debit,
          pledge.maximum_value, "Pledge", pledge.id, created_by_id⟩]
    | none => []
  let customer_code := "1051" ++ zfill4 pledge.customer_id
  let entries2 :=
    match findByCode accounts customer_code company_id with
    | some customer_account =>
        [⟨company_id, customer_account.id, pledge_date, TxnType.Credit,
          pledge.loan_amount, "Pledge", pledge.id, created_by_id⟩]
    | none => []
  let payment_account :=
    match pledge.payment_account_id with
    | some pid => findById accounts pid
    | none => findByCode accounts "1000" company_id
  let entries3 :=
    match payment_account with
    | some pa =>
        [⟨company_id, pa.id, pledge_date, TxnType.Credit,
          pledge.loan_amount, "Pledge", pledge.id, created_by_id⟩]
    | none => []
  let entries45 :=
    if 0 < pledge.first_month_interest then
      (match findByCode accounts "4000" company_id with
        | some interest_account =>
            [⟨company_id, interest_account.id, pledge_date, TxnType.Credit,
              pledge.first_month_interest, "Pledge", pledge.id,
              created_by_id⟩]
        | none => []) ++
      (match payment_account with
        | some pa =>
            [⟨company_id, pa.id, pledge_date, TxnType.Debit,
              pledge.first_month_interest, "Pledge", pledge.id,
              created_by_id⟩]
        | none => [])
    else []
  (true, entries1 ++ entries2 ++ entries3 ++ entries45)

/-- Whether a ledger row belongs to the given reference triple. -/
def matchesRef (rt : String) (rid cid : ℕ) (e : LedgerEntryRec) : Bool :=
  e.reference_type == rt && e.reference_id == rid && e.company_id == cid

/-- `reverse_pledge_ledger_entries(db, pledge_id, company_id)`: finds
every ledger row of the pledge and deletes it (`db.delete(entry)`),
then commits.  Returns the Python return value paired with the ledger
table after the call. -/
def reverse_pledge_ledger_entries (entries : List LedgerEntryRec)
    (pledge_id company_id : ℕ) : Bool × List LedgerEntryRec :=
  (true, entries.filter (fun e => !(matchesRef "Pledge" pledge_id company_id e)))

/-! ## Receipt posting helpers (`app/receipt_utils.py`,
`app/routes/receipts.py`) -/

structure ReceiptRow where
  id : ℕ
  created_by : ℕ
deriving DecidableEq, Repr

/-- The reversing row built for one original row by
`reverse_receipt_ledger_entries`: type flipped via
`"Credit" if entry.transaction_type == "Debit" else "Debit"`, same
amount and account, same `"Receipt"` reference. -/
def reversedReceiptEntry (created_by : ℕ) (now : PyDate)
    (receipt_id company_id : ℕ) (e : LedgerEntryRec) : LedgerEntryRec :=
  { company_id := company_id
    account_id := e.account_id
    transaction_date := now
    transaction_type :=
      if e.transaction_type == TxnType.Debit then TxnType.Credit
      else TxnType.Debit
    amount := e.amount
    reference_type := "Receipt"
    reference_id := receipt_id
    created_by := created_by }

/-- `reverse_receipt_ledger_entries(db, receipt_id, company_id)`:
fetches the receipt's rows; if none exist returns `True` unchanged; if
the receipt row itself is missing returns `False`; otherwise appends
one reversing row per original row.  Returns the Python return value
paired with the ledger table after the call. -/
def reverse_receipt_ledger_entries (entries : List LedgerEntryRec)
    (receipts : List ReceiptRow) (receipt_id company_id : ℕ)
    (now : PyDate) : Bool × List LedgerEntryRec :=
  let matched := entries.filter (matchesRef "Receipt" receipt_id company_id)
  if matched.isEmpty then (true, entries)
  else
    match receipts.find? (fun r => r.id == receipt_id) with
    | none => (false, entries)
    | some receipt =>
        (true, entries ++ matched.map
          (reversedReceiptEntry receipt.created_by now receipt_id company_id))

/-- Python's `str.strip()`: drop leading and trailing whitespace. -/
def pyStrip (s : String) : String :=
  String.mk
    (((s.data.dropWhile Char.isWhitespace).reverse.dropWhile
      Char.isWhitespace).reverse)

/-- Python's `str.lower()` (ASCII case folding, which is all the
keyword comparison needs). -/
def pyLower (s : String) : String :=
  String.mk (s.data.map Char.toLower)

/-- The normalization `item_data.payment_type.strip().lower() if
item_data.payment_type else ""` of `create_receipt`
(`app/routes/receipts.py`). -/
def normalize_payment_type (payment_type : Option String) : String :=
  match payment_type with
  | some s => pyLower (pyStrip s)
  | none => ""

/-- The per-item pledge status transition of `create_receipt`
(`app/routes/receipts.py`): normalize `payment_type`, match against the
closure keyword lists, and return the pledge's new
`(status, pledge_close_date)`. -/
def apply_receipt_item_status (status : String)
    (pledge_close_date : Option PyDate) (payment_type : Option String)
    (receipt_date : PyDate) : String × Option PyDate :=
  let payment_type_normalized := normalize_payment_type payment_type
  if ["full payment", "redeemed", "full", "fullpayment"].contains
      payment_type_normalized then
    ("Redeemed", some receipt_date)
  else if ["closed", "closure", "close"].contains payment_type_normalized then
    ("Closed", some receipt_date)
  else
    (status, pledge_close_date)

/-! ## Default chart of accounts (`app/accounting_utils.py`) -/

structure DefaultAccount where
  account_code : String
  account_name : String
  account_type : String
  account_category : String
  opening_balance : ℚ
  description : String
deriving DecidableEq, Repr

/-- The `DEFAULT_ACCOUNTS` template of `app/accounting_utils.py`,
transcribed row for row. -/
def DEFAULT_ACCOUNTS : List DefaultAccount := [
  ⟨"1000", "Cash", "Assets", "Cash", 0, "Cash on hand"⟩,
  ⟨"1010", "Bank Account", "Assets", "Bank", 0, "Business bank account"⟩,
  ⟨"1020", "Gold Stock", "Assets", "Inventory",
    0, "Gold jewelry and bullion inventory"⟩,
  ⟨"1030", "Silver Stock", "Assets", "Inventory",
    0, "Silver jewelry inventory"⟩,
  ⟨"1040", "Pledged Items", "Assets", "Inventory",
    0, "Inventory of pledged jewelry"⟩,
  ⟨"1050", "Customer Advances", "Assets", "Receivables",
    0, "Advances given to customers"⟩,
  ⟨"2000", "Accounts Payable", "Liabilities", "Payables",
    0, "Amount payable to suppliers"⟩,
  ⟨"2010", "Customer Deposits", "Liabilities", "Deposits",
    0, "Deposits held for customers"⟩,
  ⟨"3000", "Capital", "Equity", "Capital", 0, "Owner's capital"⟩,
  ⟨"3010", "Retained Earnings", "Equity", "Earnings",
    0, "Retained earnings from previous years"⟩,
  ⟨"4000", "Pledge Interest Income", "Income", "Interest Income",
    0, "Interest earned from pledges"⟩,
  ⟨"4010", "Gold Sales", "Income", "Sales", 0, "Revenue from gold sales"⟩,
  ⟨"4020", "Silver Sales", "Income", "Sales",
    0, "Revenue from silver sales"⟩,
  ⟨"4030", "Service Charges", "Income", "Service Income",
    0, "Service charges collected"⟩,
  ⟨"4040", "Jewelry Redemption", "Income", "Income",
    0, "Income from jewelry redemption fees"⟩,
  ⟨"5000", "Rent Expense", "Expenses", "Rent", 0, "Shop rent expense"⟩,
  ⟨"5010", "Salary Expense", "Expenses", "Salaries",
    0, "Employee salaries"⟩,
  ⟨"5020", "Utilities Expense", "Expenses", "Utilities",
    0, "Electricity, water, internet"⟩,
  ⟨"5030", "Repairs & Maintenance", "Expenses", "Maintenance",
    0, "Shop repairs and maintenance"⟩,
  ⟨"5040", "Insurance Expense", "Expenses", "Insurance",
    0, "Insurance premiums"⟩,
  ⟨"5050", "Administrative Expense", "Expenses", "Admin",
    0, "Office and administrative expenses"⟩]

/-- `create_default_coa(db, company_id)`: if any chart-of-accounts row
already exists for the company, creates nothing and returns `False`
(reporting that accounts already exist); otherwise inserts one row per
`DEFAULT_ACCOUNTS` template entry and returns `True`.  Returns the
Python return value paired with the template rows inserted. -/
def create_default_coa (existing : List COAccount) (company_id : ℕ) :
    Bool × List DefaultAccount :=
  if existing.any (fun a => a.company_id == company_id) then (false, [])
  else (true, DEFAULT_ACCOUNTS)

/-! ## Bank pledge ledger postings (`app/bank_pledge_utils.py`) -/

structure BankPledgeRec where
  id : ℕ
  bank_details_id : ℕ
  transfer_date : PyDate
  valuation_amount : ℚ
  ltv_percentage : ℚ
  bank_loan_amount : ℚ
  original_shop_loan : ℚ
  outstanding_interest : ℚ
deriving DecidableEq, Repr

/-- Result of a bank-pledge posting routine: the source returns a dict
with `status` `"success"` (entries, count, totals) or one of the two
error shapes (missing accounts, or the defensive balance check). -/
inductive BPLedgerResult where
  | success (entries : List LedgerEntryRec) (entries_created : ℕ)
      (total_debits total_credits : ℚ)
  | missingAccounts
  | notBalanced (total_debits total_credits : ℚ)
deriving DecidableEq, Repr

/-- `create_bank_pledge_ledger_entries(db, bank_pledge, created_by,
company_id)`: resolves accounts 1051, 1500, 2100, 2200 (all required),
posts the receivable-reversal pair for
`original_shop_loan + outstanding_interest` and the bank asset/payable
pair for `bank_loan_amount`, then runs the defensive
`total_debits != total_credits` check before committing. -/
def create_bank_pledge_ledger_entries (accounts : List COAccount)
    (bank_pledge : BankPledgeRec) (created_by company_id : ℕ) :
    BPLedgerResult :=
  match findByCode accounts "1051" company_id,
      findByCode accounts "1500" company_id,
      findByCode accounts "2100" company_id,
      findByCode accounts "2200" company_id with
  | some customer_receivable_account, some jewel_inventory_account,
      some bank_pledge_asset_account, some bank_loan_payable_account =>
    let reversal_amount :=
      bank_pledge.original_shop_loan + bank_pledge.outstanding_interest
    let entries : List LedgerEntryRec :=
      [⟨company_id, customer_receivable_account.id, bank_pledge.transfer_date,
        TxnType.Debit, reversal_amount, "BankPledge", bank_pledge.id,
        created_by⟩,
       ⟨company_id, jewel_inventory_account.id, bank_pledge.transfer_date,
        TxnType.Credit, reversal_amount, "BankPledge", bank_pledge.id,
        created_by⟩,
       ⟨company_id, bank_pledge_asset_account.id, bank_pledge.transfer_date,
        TxnType.Debit, bank_pledge.bank_loan_amount, "BankPledge",
        bank_pledge.id, created_by⟩,
       ⟨company_id, bank_loan_payable_account.id, bank_pledge.transfer_date,
        TxnType.Credit, bank_pledge.bank_loan_amount, "BankPledge",
        bank_pledge.id, created_by⟩]
    let total_debits := 0 + reversal_amount + bank_pledge.bank_loan_amount
    let total_credits := 0 + reversal_amount + bank_pledge.bank_loan_amount
    if total_debits ≠ total_credits then
      BPLedgerResult.notBalanced total_debits total_credits
    else
      BPLedgerResult.success entries 4 total_debits total_credits
  | _, _, _, _ => BPLedgerResult.missingAccounts

structure BankRedemptionRec where
  id : ℕ
  redemption_date : PyDate
  amount_paid_to_bank : ℚ
  interest_on_bank_loan : ℚ
  bank_charges : ℚ
  price_difference : ℚ
deriving DecidableEq, Repr

/-- `create_bank_redemption_ledger_entries(db, redemption, bank_pledge,
created_by, company_id)`: requires accounts 1000, 2200, 5300, 5400,
4200; accounts 1051 and 1500 are optional and only guard the
restore-receivable pair.  Every amount is posted as a debit/credit pair
under the same guard, after which the defensive
`total_debits != total_credits` check runs. -/
def create_bank_redemption_ledger_entries (accounts : List COAccount)
    (redemption : BankRedemptionRec) (bank_pledge : Option BankPledgeRec)
    (created_by company_id : ℕ) : BPLedgerResult :=
  match findByCode accounts "1000" company_id,
      findByCode accounts "2200" company_id,
      findByCode accounts "5300" company_id,
      findByCode accounts "5400" company_id,
      findByCode accounts "4200" company_id with
  | some cash_account, some bank_loan_payable_account,
      some interest_expense_account, some charges_expense_account,
      some gain_loss_account =>
    let customer_receivable_account := findByCode accounts "1051" company_id
    let jewel_inventory_account := findByCode accounts "1500" company_id
    let d := redemption.redemption_date
    let ref := "BankRedemption"
    let pair1 : List LedgerEntryRec :=
      [⟨company_id, bank_loan_payable_account.id, d, TxnType.Debit,
        redemption.amount_paid_to_bank, ref, redemption.id, created_by⟩,
       ⟨company_id, cash_account.id, d, TxnType.Credit,
        redemption.amount_paid_to_bank, ref, redemption.id, created_by⟩]
    let pair2 : List LedgerEntryRec :=
      if 0 < redemption.interest_on_bank_loan then
        [⟨company_id, interest_expense_account.id, d, TxnType.Debit,
          redemption.interest_on_bank_loan, ref, redemption.id, created_by⟩,
         ⟨company_id, cash_account.id, d, TxnType.Credit,
          redemption.interest_on_bank_loan, ref, redemption.id, created_by⟩]
      else []
    let pair3 : List LedgerEntryRec :=
      if 0 < redemption.bank_charges then
        [⟨company_id, charges_expense_account.id, d, TxnType.Debit,
          redemption.bank_charges, ref, redemption.id, created_by⟩,
         ⟨company_id, cash_account.id, d, TxnType.Credit,
          redemption.bank_charges, ref, redemption.id, created_by⟩]
      else []
    let pair4 : List LedgerEntryRec :=
      if redemption.price_difference ≠ 0 then
        if 0 < redemption.price_difference then
          [⟨company_id, cash_account.id, d, TxnType.Debit,
            redemption.price_difference, ref, redemption.id, created_by⟩,
           ⟨company_id, gain_loss_account.id, d, TxnType.Credit,
            redemption.price_difference, ref, redemption.id, created_by⟩]
        else
          [⟨company_id, gain_loss_account.id, d, TxnType.Debit,
            |redemption.price_difference|, ref, redemption.id, created_by⟩,
           ⟨company_id, cash_account.id, d, TxnType.Credit,
            |redemption.price_difference|, ref, redemption.id, created_by⟩]
      else []
    let pair5 : List LedgerEntryRec :=
      match bank_pledge with
      | some bp =>
        if 0 < bp.original_shop_loan then
          match customer_receivable_account, jewel_inventory_account with
          | some recv, some inv =>
            [⟨company_id, inv.id, d, TxnType.Debit,
              bp.original_shop_loan, ref, redemption.id, created_by⟩,
             ⟨company_id, recv.id, d, TxnType.Credit,
              bp.original_shop_loan, ref, redemption.id, created_by⟩]
          | _, _ => []
        else []
      | none => []
    let total_debits :=
      0 + redemption.amount_paid_to_bank +
      (if 0 < redemption.interest_on_bank_loan then
        redemption.interest_on_bank_loan else 0) +
      (if 0 < redemption.bank_charges then redemption.bank_charges else 0) +
      (if redemption.price_difference ≠ 0 then
        (if 0 < redemption.price_difference then redemption.price_difference
          else |redemption.price_difference|) else 0) +
      (match bank_pledge with
        | some bp =>
          if 0 < bp.original_shop_loan then
            match customer_receivable_account, jewel_inventory_account with
            | some _, some _ => bp.original_shop_loan
            | _, _ => 0
          else 0
        | none => 0)
    let total_credits :=
      0 + redemption.amount_paid_to_bank +
      (if 0 < redemption.interest_on_bank_loan then
        redemption.interest_on_bank_loan else 0) +
      (if 0 < redemption.bank_charges then redemption.bank_charges else 0) +
      (if redemption.price_difference ≠ 0 then
        (if 0 < redemption.price_difference then redemption.price_difference
          else |redemption.price_difference|) else 0) +
      (match bank_pledge with
        | some bp =>
          if 0 < bp.original_shop_loan then
            match customer_receivable_account, jewel_inventory_account with
            | some _, some _ => bp.original_shop_loan
            | _, _ => 0
          else 0
        | none => 0)
    let entries := pair1 ++ pair2 ++ pair3 ++ pair4 ++ pair5
    if total_debits ≠ total_credits then
      BPLedgerResult.notBalanced total_debits total_credits
    else
      BPLedgerResult.success entries entries.length total_debits total_credits
  | _, _, _, _, _ => BPLedgerResult.missingAccounts

/-! ## Bank transfer route (`app/routes/bank_pledges.py`,
`transfer_pledge_to_bank`) -/

structure PledgeStatusRow where
  id : ℕ
  company_id : ℕ
  status : String
  loan_amount : ℚ
  first_month_interest : ℚ
deriving DecidableEq, Repr

structure BankRow where
  id : ℕ
  status : Bool
deriving DecidableEq, Repr

structure TransferRequest where
  pledge_id : ℕ
  bank_details_id : ℕ
  transfer_date : PyDate
  valuation_amount : ℚ
  ltv_percentage : ℚ
deriving DecidableEq, Repr

inductive TransferError where
  | PledgeNotFoundOrNotActive
  | InvalidLTV
  | BankNotFound
  | LedgerFailed
deriving DecidableEq, Repr

/-- The validation and posting sequence of `transfer_pledge_to_bank`:
look up an Active pledge, check `50 <= ltv_percentage <= 95`, look up
an active bank, compute
`bank_loan_amount = valuation_amount * (ltv_percentage / 100)`, build
the `BankPledge` row and call `create_bank_pledge_ledger_entries`.  Any
error rolls the transaction back, so an error result commits no ledger
entries; `Except.ok` carries the computed bank loan amount and the
committed entries. -/
def transfer_pledge_to_bank (pledges : List PledgeStatusRow)
    (banks : List BankRow) (accounts : List COAccount)
    (request : TransferRequest) (current_user_id : ℕ) :
    Except TransferError (ℚ × List LedgerEntryRec) :=
  match pledges.find? (fun p =>
      p.id == request.pledge_id && p.status == "Active") with
  | none => Except.error TransferError.PledgeNotFoundOrNotActive
  | some pledge =>
    if ¬(50 ≤ request.ltv_percentage ∧ request.ltv_percentage ≤ 95) then
      Except.error TransferError.InvalidLTV
    else
      match banks.find? (fun b =>
          b.id == request.bank_details_id && b.status) with
      | none => Except.error TransferError.BankNotFound
      | some _ =>
        let bank_loan_amount :=
          request.valuation_amount * (request.ltv_percentage / 100)
        let bank_pledge : BankPledgeRec :=
          { id := 0
            bank_details_id := request.bank_details_id
            transfer_date := request.transfer_date
            valuation_amount := request.valuation_amount
            ltv_percentage := request.ltv_percentage
            bank_loan_amount := bank_loan_amount
            original_shop_loan := pledge.loan_amount
            outstanding_interest := pledge.first_month_interest }
        match create_bank_pledge_ledger_entries accounts bank_pledge
            current_user_id pledge.company_id with
        | BPLedgerResult.success entries _ _ _ =>
            Except.ok (bank_loan_amount, entries)
        | _ => Except.error TransferError.LedgerFailed

/-! ## Pledge number generation (`app/pledge_utils.py`,
`generate_pledge_no`).  `datetime.now().year` is passed in as
`current_year`. -/

structure SchemeRec where
  id : ℕ
  pfx : String
deriving DecidableEq, Repr

structure PledgeNoRow where
  id : ℕ
  scheme_id : ℕ
  pledge_no : String
deriving DecidableEq, Repr

/-- Python's `str.split(sep)` for a one-character separator, on the
character list of the string: splitting an empty string yields one
empty field, and consecutive separators yield empty fields. -/
def splitOnChar (c : Char) : List Char → List (List Char)
  | [] => [[]]
  | x :: xs =>
    if x = c then [] :: splitOnChar c xs
    else
      match splitOnChar c xs with
      | [] => [[x]]
      | h :: t => (x :: h) :: t

/-- Digit-string accumulator for `parseNat?`. -/
def parseNatAux : List Char → ℕ → Option ℕ
  | [], acc => some acc
  | c :: cs, acc =>
    if c.isDigit then parseNatAux cs (acc * 10 + (c.toNat - 48)) else none

/-- Python's `int(s)` on the strings reaching it here: a non-empty
all-digit string parses (leading zeros allowed), anything else raises
`ValueError`, modelled as `none`. -/
def parseNat? (l : List Char) : Option ℕ :=
  match l with
  | [] => none
  | _ => parseNatAux l 0

/-- Python's `str.startswith(pre)`. -/
def strStartsWith (s pre : String) : Bool :=
  pre.data.isPrefixOf s.data

/-- The `order_by(Pledge.id.desc()).first()` of the filtered query:
the candidate with the greatest `id`. -/
def latestPledge (candidates : List PledgeNoRow) : Option PledgeNoRow :=
  candidates.foldl (fun best p =>
    match best with
    | none => some p
    | some b => if b.id < p.id then some p else some b) none

/-- The sequence computation of `generate_pledge_no`: split the latest
pledge number on `"-"`; with at least three parts, `int(parts[2]) + 1`,
falling back to 1 when parsing fails or the shape is wrong. -/
def nextSequence (latest : Option PledgeNoRow) : ℕ :=
  match latest with
  | none => 1
  | some latest_pledge =>
    let parts := splitOnChar '-' latest_pledge.pledge_no.data
    if 3 ≤ parts.length then
      match parseNat? ((parts.get? 2).getD []) with
      | some n => n + 1
      | none => 1
    else 1

/-- `generate_pledge_no(db, scheme_id, company_id)`: resolve the
scheme's prefix, filter this year's pledges of the scheme, take the
latest by id, and format `{prefix}-{year}-{sequence:04d}`.  A missing
scheme raises, modelled as `Except.error`. -/
def generate_pledge_no (schemes : List SchemeRec)
    (pledges : List PledgeNoRow) (scheme_id current_year : ℕ) :
    Except String String :=
  match schemes.find? (fun s => s.id == scheme_id) with
  | none => Except.error "Scheme not found"
  | some scheme =>
    let candidates := pledges.filter (fun p =>
      p.scheme_id == scheme_id &&
        strStartsWith p.pledge_no (scheme.pfx ++ "-" ++ toString current_year))
    let sequence := nextSequence (latestPledge candidates)
    Except.ok (scheme.pfx ++ "-" ++ toString current_year ++ "-" ++
      zfill4 sequence)

/-! ## Concrete fixtures used by the evaluation theorems -/

/-- A company-1 chart with all four accounts a pledge posting reads:
Pledged Items 1040, the customer-7 receivable, Cash 1000 and Pledge
Interest Income 4000. -/
def fullChart : List COAccount :=
  [⟨1, 1, "1040"⟩, ⟨2, 1, "10510007"⟩, ⟨3, 1, "1000"⟩, ⟨4, 1, "4000"⟩]

/-- The same chart with the required Pledged Items account 1040
missing. -/
def chartNo1040 : List COAccount :=
  [⟨2, 1, "10510007"⟩, ⟨3, 1, "1000"⟩, ⟨4, 1, "4000"⟩]

/-- Pledge of customer 7: items valued 10000, loan 8000, no first-month
interest, default cash payment account. -/
def pledgeA : PledgeRec :=
  ⟨1, 7, "GLD-2025-0001", ⟨2025, 1, 15⟩, 10000, 8000, 0, none⟩

/-- Same pledge with a 500 first-month interest. -/
def pledgeB : PledgeRec :=
  ⟨1, 7, "GLD-2025-0001", ⟨2025, 1, 15⟩, 10000, 8000, 500, none⟩

/-- A one-row ledger holding a single posted pledge entry. -/
def oneEntryLedger : List LedgerEntryRec :=
  [⟨1, 5, ⟨2025, 1, 15⟩, TxnType.Debit, 100, "Pledge", 9, 1⟩]

/-- A one-row ledger holding a single posted receipt entry. -/
def receiptLedger : List LedgerEntryRec :=
  [⟨1, 5, ⟨2025, 1, 20⟩, TxnType.Debit, 100, "Receipt", 9, 1⟩]

/-! ## Theorems -/

/-- Membership in an optional singleton produced by an account match. -/
theorem mem_account_match {o : Option COAccount}
    {mk : COAccount → LedgerEntryRec} {e : LedgerEntryRec}
    (he : e ∈ (match o with | some a => [mk a] | none => [])) :
    ∃ a, o = some a ∧ e = mk a := by
  cases o with
  | none => simp at he
  | some a =>
    simp only [List.mem_singleton] at he
    exact ⟨a, rfl, he⟩

/-- C1: the spec asserts every pledge posting (with all referenced
accounts present) yields balanced ledger entries.  Evaluating
`create_pledge_ledger_entries` on a full chart of accounts and a pledge
with `maximum_value = 10000`, `loan_amount = 8000`,
`first_month_interest = 0` produces total debits 10000 against total
credits 16000 — the cash entry is posted as a Credit (the function's
own docstring lists it as a Debit), so the batch is not balanced. -/
theorem claim1_pledge_posting_not_balanced :
    sumDebits (create_pledge_ledger_entries fullChart pledgeA 1 9).2 = 10000 ∧
    sumCredits (create_pledge_ledger_entries fullChart pledgeA 1 9).2 = 16000 ∧
    sumDebits (create_pledge_ledger_entries fullChart pledgeA 1 9).2 ≠
      sumCredits (create_pledge_ledger_entries fullChart pledgeA 1 9).2 := by
  have h : (create_pledge_ledger_entries fullChart pledgeA 1 9).2 =
      [⟨1, 1, ⟨2025, 1, 15⟩, TxnType.Debit, 10000, "Pledge", 1, 9⟩,
       ⟨1, 2, ⟨2025, 1, 15⟩, TxnType.Credit, 8000, "Pledge", 1, 9⟩,
       ⟨1, 3, ⟨2025, 1, 15⟩, TxnType.Credit, 8000, "Pledge", 1, 9⟩] := by
    decide
  have h1 : sumDebits (create_pledge_ledger_entries fullChart pledgeA 1 9).2
      = 10000 := by
    rw [h]; norm_num [sumDebits]; decide
  have h2 : sumCredits (create_pledge_ledger_entries fullChart pledgeA 1 9).2
      = 16000 := by
    rw [h]; norm_num [sumCredits]; decide
  refine ⟨h1, h2, ?_⟩
  rw [h1, h2]
  norm_num

/-- C2 counterexample: with the required Pledged Items account 1040
missing, the claim says the posting fails and commits nothing; instead
`create_pledge_ledger_entries` returns success and commits the four
entries whose accounts did resolve — a partial subset. -/
theorem claim2_counterexample_partial_commit :
    (create_pledge_ledger_entries chartNo1040 pledgeB 1 9).1 = true ∧
    (create_pledge_ledger_entries chartNo1040 pledgeB 1 9).2.length = 4 ∧
    (create_pledge_ledger_entries chartNo1040 pledgeB 1 9).2 ≠ [] := by
  refine ⟨rfl, by decide, by decide⟩

/-- C2 amended: a missing account never aborts the posting.
`create_pledge_ledger_entries` always reports success, and the
committed entries are exactly those whose account lookups resolved —
each committed entry references an account present in the chart, and
entries for unresolved accounts are silently skipped. -/
theorem claim2_amended_missing_accounts_skipped
    (accounts : List COAccount) (pledge : PledgeRec)
    (company_id created_by_id : ℕ) :
    (create_pledge_ledger_entries accounts pledge company_id
      created_by_id).1 = true ∧
    ∀ e ∈ (create_pledge_ledger_entries accounts pledge company_id
      created_by_id).2, ∃ a ∈ accounts, e.account_id = a.id := by
  refine ⟨rfl, ?_⟩
  intro e he
  unfold create_pledge_ledger_entries at he
  simp only [List.mem_append] at he
  have hfind : ∀ {code : String} {a : COAccount},
      findByCode accounts code company_id = some a → a ∈ accounts :=
    fun h => List.mem_of_find?_eq_some h
  have hfindId : ∀ {aid : ℕ} {a : COAccount},
      findById accounts aid = some a → a ∈ accounts :=
    fun h => List.mem_of_find?_eq_some h
  have hpay : ∀ {a : COAccount},
      (match pledge.payment_account_id with
        | some pid => findById accounts pid
        | none => findByCode accounts "1000" company_id) = some a →
      a ∈ accounts := by
    intro a h
    cases hp : pledge.payment_account_id with
    | some pid => rw [hp] at h; exact hfindId h
    | none => rw [hp] at h; exact hfind h
  rcases he with ((he | he) | he) | he
  · obtain ⟨a, ha, rfl⟩ := mem_account_match he
    exact ⟨a, hfind ha, rfl⟩
  · obtain ⟨a, ha, rfl⟩ := mem_account_match he
    exact ⟨a, hfind ha, rfl⟩
  · obtain ⟨a, ha, rfl⟩ := mem_account_match he
    exact ⟨a, hpay ha, rfl⟩
  · by_cases hfm : 0 < pledge.first_month_interest
    · rw [if_pos hfm] at he
      simp only [List.mem_append] at he
      rcases he with he | he
      · obtain ⟨a, ha, rfl⟩ := mem_account_match he
        exact ⟨a, hfind ha, rfl⟩
      · obtain ⟨a, ha, rfl⟩ := mem_account_match he
        exact ⟨a, hpay ha, rfl⟩
    · rw [if_neg hfm] at he
      simp at he

/-- C2 amended witness: the amended statement instantiated on the
chart missing account 1040, at the committed receivable entry. -/
theorem claim2_amended_witness :
    (create_pledge_ledger_entries chartNo1040 pledgeB 1 9).1 = true ∧
    ∃ a ∈ chartNo1040,
      (⟨1, 2, ⟨2025, 1, 15⟩, TxnType.Credit, 8000, "Pledge", 1, 9⟩ :
        LedgerEntryRec).account_id = a.id :=
  ⟨(claim2_amended_missing_accounts_skipped chartNo1040 pledgeB 1 9).1,
   (claim2_amended_missing_accounts_skipped chartNo1040 pledgeB 1 9).2 _
     (by decide)⟩

/-- Debit total of a cons. -/
theorem sumDebits_cons (e : LedgerEntryRec) (l : List LedgerEntryRec) :
    sumDebits (e :: l) =
      (if e.transaction_type = TxnType.Debit then e.amount else 0) +
        sumDebits l := by
  simp [sumDebits]

/-- Credit total of a cons. -/
theorem sumCredits_cons (e : LedgerEntryRec) (l : List LedgerEntryRec) :
    sumCredits (e :: l) =
      (if e.transaction_type = TxnType.Credit then e.amount else 0) +
        sumCredits l := by
  simp [sumCredits]

/-- Debit totals add over concatenation. -/
theorem sumDebits_append (a b : List LedgerEntryRec) :
    sumDebits (a ++ b) = sumDebits a + sumDebits b := by
  simp [sumDebits]

/-- Credit totals add over concatenation. -/
theorem sumCredits_append (a b : List LedgerEntryRec) :
    sumCredits (a ++ b) = sumCredits a + sumCredits b := by
  simp [sumCredits]

/-- Reversing rows turn a list's credit total into its debit total. -/
theorem sumDebits_map_reversed (u : ℕ) (now : PyDate) (rid cid : ℕ)
    (l : List LedgerEntryRec) :
    sumDebits (l.map (reversedReceiptEntry u now rid cid)) = sumCredits l := by
  induction l with
  | nil => simp [sumDebits, sumCredits]
  | cons e t ih =>
    rw [List.map_cons, sumDebits_cons, sumCredits_cons, ih]
    cases he : e.transaction_type <;>
      simp [reversedReceiptEntry, he]

/-- Reversing rows turn a list's debit total into its credit total. -/
theorem sumCredits_map_reversed (u : ℕ) (now : PyDate) (rid cid : ℕ)
    (l : List LedgerEntryRec) :
    sumCredits (l.map (reversedReceiptEntry u now rid cid)) = sumDebits l := by
  induction l with
  | nil => simp [sumDebits, sumCredits]
  | cons e t ih =>
    rw [List.map_cons, sumCredits_cons, sumDebits_cons, ih]
    cases he : e.transaction_type <;>
      simp [reversedReceiptEntry, he]

/-- Filtering for a predicate after keeping its complement is empty. -/
theorem filter_after_filter_not (p : LedgerEntryRec → Bool)
    (l : List LedgerEntryRec) :
    (l.filter (fun e => !(p e))).filter p = [] := by
  induction l with
  | nil => rfl
  | cons e t ih =>
    cases hp : p e <;> simp [List.filter, hp, ih]

/-- C3 counterexample: the claim says pledge reversal is additive and
retains the originals.  On a ledger holding one pledge entry,
`reverse_pledge_ledger_entries` leaves an empty ledger: the original is
deleted and no reversing entry exists, so the entry count is 0, not
2n = 2. -/
theorem claim3_counterexample_pledge_reversal_deletes :
    oneEntryLedger.length = 1 ∧
    (reverse_pledge_ledger_entries oneEntryLedger 9 1).2 = [] := by
  exact ⟨rfl, by decide⟩

/-- C3 amended: pledge reversal is destructive — it deletes every
entry of the pledge's reference and keeps nothing; receipt reversal is
the additive operation: one reversing entry per original with the type
flipped and the amount kept (tagged with the same reference_type
`"Receipt"`, not a distinguishing one), originals retained, leaving 2n
matching entries whose combined debits equal their combined credits. -/
theorem claim3_amended_reversal_semantics :
    (∀ (entries : List LedgerEntryRec) (pledge_id company_id : ℕ),
      (reverse_pledge_ledger_entries entries pledge_id company_id).1 = true ∧
      ((reverse_pledge_ledger_entries entries pledge_id company_id).2.filter
        (matchesRef "Pledge" pledge_id company_id)) = []) ∧
    (∀ (entries : List LedgerEntryRec) (receipts : List ReceiptRow)
      (receipt_id company_id : ℕ) (now : PyDate) (r : ReceiptRow),
      receipts.find? (fun x => x.id == receipt_id) = some r →
      entries.filter (matchesRef "Receipt" receipt_id company_id) ≠ [] →
      (reverse_receipt_ledger_entries entries receipts receipt_id company_id
        now).1 = true ∧
      (reverse_receipt_ledger_entries entries receipts receipt_id company_id
        now).2 = entries ++
          (entries.filter (matchesRef "Receipt" receipt_id company_id)).map
            (reversedReceiptEntry r.created_by now receipt_id company_id) ∧
      ((reverse_receipt_ledger_entries entries receipts receipt_id company_id
        now).2.filter (matchesRef "Receipt" receipt_id company_id)).length =
        2 * (entries.filter
          (matchesRef "Receipt" receipt_id company_id)).length ∧
      sumDebits ((reverse_receipt_ledger_entries entries receipts receipt_id
        company_id now).2.filter
          (matchesRef "Receipt" receipt_id company_id)) =
        sumCredits ((reverse_receipt_ledger_entries entries receipts
          receipt_id company_id now).2.filter
            (matchesRef "Receipt" receipt_id company_id))) := by
  constructor
  · intro entries pledge_id company_id
    exact ⟨rfl, filter_after_filter_not _ entries⟩
  · intro entries receipts receipt_id company_id now r hfind hne
    have hempty :
        (entries.filter (matchesRef "Receipt" receipt_id company_id)).isEmpty
          = false := by
      cases hl : entries.filter (matchesRef "Receipt" receipt_id company_id)
      · exact absurd hl hne
      · rfl
    have hout : reverse_receipt_ledger_entries entries receipts receipt_id
        company_id now = (true, entries ++
          (entries.filter (matchesRef "Receipt" receipt_id company_id)).map
            (reversedReceiptEntry r.created_by now receipt_id company_id)) := by
      simp [reverse_receipt_ledger_entries, hempty, hfind]
    have hrevmatch :
        ((entries.filter (matchesRef "Receipt" receipt_id company_id)).map
          (reversedReceiptEntry r.created_by now receipt_id
            company_id)).filter (matchesRef "Receipt" receipt_id company_id) =
        (entries.filter (matchesRef "Receipt" receipt_id company_id)).map
          (reversedReceiptEntry r.created_by now receipt_id company_id) := by
      rw [List.filter_eq_self]
      intro a ha
      obtain ⟨e, _, rfl⟩ := List.mem_map.mp ha
      simp [matchesRef, reversedReceiptEntry]
    have hfiltered : (reverse_receipt_ledger_entries entries receipts
        receipt_id company_id now).2.filter
          (matchesRef "Receipt" receipt_id company_id) =
        entries.filter (matchesRef "Receipt" receipt_id company_id) ++
          (entries.filter (matchesRef "Receipt" receipt_id company_id)).map
            (reversedReceiptEntry r.created_by now receipt_id company_id) := by
      rw [hout]
      simp only [List.filter_append, hrevmatch]
    refine ⟨by rw [hout], by rw [hout], ?_, ?_⟩
    · rw [hfiltered]
      simp [Nat.two_mul]
    · rw [hfiltered, sumDebits_append, sumCredits_append,
        sumDebits_map_reversed, sumCredits_map_reversed]
      ring

/-- C3 amended witness: the receipt half of the amended statement
instantiated on a one-entry receipt ledger. -/
theorem claim3_amended_witness :
    (reverse_receipt_ledger_entries receiptLedger [⟨9, 2⟩] 9 1
      ⟨2025, 2, 1⟩).1 = true ∧
    (reverse_receipt_ledger_entries receiptLedger [⟨9, 2⟩] 9 1
      ⟨2025, 2, 1⟩).2 = receiptLedger ++
        (receiptLedger.filter (matchesRef "Receipt" 9 1)).map
          (reversedReceiptEntry 2 ⟨2025, 2, 1⟩ 9 1) ∧
    ((reverse_receipt_ledger_entries receiptLedger [⟨9, 2⟩] 9 1
      ⟨2025, 2, 1⟩).2.filter (matchesRef "Receipt" 9 1)).length =
      2 * (receiptLedger.filter (matchesRef "Receipt" 9 1)).length ∧
    sumDebits ((reverse_receipt_ledger_entries receiptLedger [⟨9, 2⟩] 9 1
      ⟨2025, 2, 1⟩).2.filter (matchesRef "Receipt" 9 1)) =
      sumCredits ((reverse_receipt_ledger_entries receiptLedger [⟨9, 2⟩] 9 1
        ⟨2025, 2, 1⟩).2.filter (matchesRef "Receipt" 9 1)) :=
  claim3_amended_reversal_semantics.2 receiptLedger [⟨9, 2⟩] 9 1
    ⟨2025, 2, 1⟩ ⟨9, 2⟩ (by decide) (by decide)

/-- C6: the pledge status transition of a receipt item is decided by
the trimmed, lowercased `payment_type`: a redemption keyword sets
status `"Redeemed"` with the receipt date as close date, a closure
keyword sets `"Closed"` with the close date, and anything else leaves
both the status and the close date unchanged (an Active pledge stays
`"Active"`). -/
theorem claim6_payment_type_transitions (status : String)
    (pledge_close_date : Option PyDate) (payment_type : Option String)
    (receipt_date : PyDate) :
    (["full payment", "redeemed", "full", "fullpayment"].contains
        (normalize_payment_type payment_type) = true →
      apply_receipt_item_status status pledge_close_date payment_type
        receipt_date = ("Redeemed", some receipt_date)) ∧
    (["closed", "closure", "close"].contains
        (normalize_payment_type payment_type) = true →
      apply_receipt_item_status status pledge_close_date payment_type
        receipt_date = ("Closed", some receipt_date)) ∧
    (["full payment", "redeemed", "full", "fullpayment"].contains
        (normalize_payment_type payment_type) = false →
      ["closed", "closure", "close"].contains
        (normalize_payment_type payment_type) = false →
      apply_receipt_item_status status pledge_close_date payment_type
        receipt_date = (status, pledge_close_date)) := by
  refine ⟨?_, ?_, ?_⟩
  · intro h
    have hm : normalize_payment_type payment_type ∈
        ["full payment", "redeemed", "full", "fullpayment"] := by
      simpa using h
    simp only [List.mem_cons, List.not_mem_nil, or_false] at hm
    rcases hm with h1 | h1 | h1 | h1 <;>
      simp [apply_receipt_item_status, h1]
  · intro h
    have hm : normalize_payment_type payment_type ∈
        ["closed", "closure", "close"] := by
      simpa using h
    simp only [List.mem_cons, List.not_mem_nil, or_false] at hm
    rcases hm with h1 | h1 | h1 <;>
      simp [apply_receipt_item_status, h1]
  · intro h1 h2
    have hm1 : normalize_payment_type payment_type ∉
        ["full payment", "redeemed", "full", "fullpayment"] := by
      simpa using h1
    have hm2 : normalize_payment_type payment_type ∉
        ["closed", "closure", "close"] := by
      simpa using h2
    simp only [List.mem_cons, List.not_mem_nil, or_false, not_or]
      at hm1 hm2
    obtain ⟨a1, a2, a3, a4⟩ := hm1
    obtain ⟨b1, b2, b3⟩ := hm2
    simp [apply_receipt_item_status, a1, a2, a3, a4, b1, b2, b3]

/-- C6 witness: the three branches exercised on concrete payment
types, including the spec's `"Full Payment"` redemption scenario. -/
theorem claim6_witness :
    apply_receipt_item_status "Active" none (some " Full Payment ")
      ⟨2025, 3, 1⟩ = ("Redeemed", some ⟨2025, 3, 1⟩) ∧
    apply_receipt_item_status "Active" none (some "CLOSE")
      ⟨2025, 3, 1⟩ = ("Closed", some ⟨2025, 3, 1⟩) ∧
    apply_receipt_item_status "Active" none (some "Partial Payment")
      ⟨2025, 3, 1⟩ = ("Active", none) :=
  ⟨(claim6_payment_type_transitions "Active" none (some " Full Payment ")
      ⟨2025, 3, 1⟩).1 (by decide),
   (claim6_payment_type_transitions "Active" none (some "CLOSE")
      ⟨2025, 3, 1⟩).2.1 (by decide),
   (claim6_payment_type_transitions "Active" none (some "Partial Payment")
      ⟨2025, 3, 1⟩).2.2 (by decide) (by decide)⟩

/-- C7 counterexample: the claim says seeding an empty company creates
exactly 20 accounts; the `DEFAULT_ACCOUNTS` template actually holds 21
rows (six asset accounts 1000–1050, not five), so 21 accounts are
created. -/
theorem claim7_counterexample_template_size :
    (create_default_coa [] 1).1 = true ∧
    (create_default_coa [] 1).2.length = 21 ∧
    (create_default_coa [] 1).2.length ≠ 20 := by
  exact ⟨rfl, by decide, by decide⟩

/-- C7 amended: seeding a company with no chart rows creates exactly
the 21 template accounts, whose codes all parse as numbers in
1000–5050 and which cover all five account_type buckets; for a company
that already has any account, nothing is created and the call reports
that accounts already exist (returns `False`). -/
theorem claim7_amended_seed_default_accounts :
    create_default_coa [] 1 = (true, DEFAULT_ACCOUNTS) ∧
    DEFAULT_ACCOUNTS.length = 21 ∧
    (∀ a ∈ DEFAULT_ACCOUNTS, ∃ n, parseNat? a.account_code.data = some n ∧
      1000 ≤ n ∧ n ≤ 5050) ∧
    (∀ t ∈ ["Assets", "Liabilities", "Equity", "Income", "Expenses"],
      ∃ a ∈ DEFAULT_ACCOUNTS, a.account_type = t) ∧
    (∀ a ∈ DEFAULT_ACCOUNTS,
      a.account_type ∈ ["Assets", "Liabilities", "Equity", "Income",
        "Expenses"]) ∧
    (∀ (existing : List COAccount) (company_id : ℕ),
      existing.any (fun a => a.company_id == company_id) = true →
      create_default_coa existing company_id = (false, [])) := by
  refine ⟨rfl, by decide, by decide, by decide, by decide, ?_⟩
  intro existing company_id h
  simp [create_default_coa, h]

/-- C7 amended witness: seeding is refused for a company that already
has an account. -/
theorem claim7_amended_witness :
    create_default_coa [⟨1, 1, "1000"⟩] 1 = (false, []) :=
  claim7_amended_seed_default_accounts.2.2.2.2.2 [⟨1, 1, "1000"⟩] 1
    (by decide)

/-- C9: pledge-number generation for a scheme prefixed `"GLD"` in year
2025 yields `"GLD-2025-0001"` with no prior pledges and
`"GLD-2025-0002"` once that pledge exists; in general the result is
`{prefix}-{year}-{sequence:04d}`, and when the latest matching pledge's
number has a numeric third field `n` the sequence is `n + 1`. -/
theorem claim9_sequence_format :
    generate_pledge_no [⟨1, "GLD"⟩] [] 1 2025 =
      Except.ok "GLD-2025-0001" ∧
    generate_pledge_no [⟨1, "GLD"⟩] [⟨1, 1, "GLD-2025-0001"⟩] 1 2025 =
      Except.ok "GLD-2025-0002" ∧
    (∀ (schemes : List SchemeRec) (pledges : List PledgeNoRow)
      (scheme_id current_year : ℕ) (s : SchemeRec),
      schemes.find? (fun x => x.id == scheme_id) = some s →
      ∃ seq, generate_pledge_no schemes pledges scheme_id current_year =
        Except.ok (s.pfx ++ "-" ++ toString current_year ++ "-" ++
          zfill4 seq)) ∧
    (∀ (schemes : List SchemeRec) (pledges : List PledgeNoRow)
      (scheme_id current_year : ℕ) (s : SchemeRec) (lp : PledgeNoRow)
      (n : ℕ),
      schemes.find? (fun x => x.id == scheme_id) = some s →
      latestPledge (pledges.filter (fun p => p.scheme_id == scheme_id &&
        strStartsWith p.pledge_no
          (s.pfx ++ "-" ++ toString current_year))) = some lp →
      parseNat? (((splitOnChar '-' lp.pledge_no.data).get? 2).getD []) =
        some n →
      generate_pledge_no schemes pledges scheme_id current_year =
        Except.ok (s.pfx ++ "-" ++ toString current_year ++ "-" ++
          zfill4 (n + 1))) := by
  refine ⟨rfl, rfl, ?_, ?_⟩
  · intro schemes pledges scheme_id current_year s hfind
    refine ⟨nextSequence (latestPledge (pledges.filter (fun p =>
      p.scheme_id == scheme_id && strStartsWith p.pledge_no
        (s.pfx ++ "-" ++ toString current_year)))), ?_⟩
    simp [generate_pledge_no, hfind]
  · intro schemes pledges scheme_id current_year s lp n hfind hlatest hparse
    have hlen : 3 ≤ (splitOnChar '-' lp.pledge_no.data).length := by
      by_contra hlt
      have hnone : (splitOnChar '-' lp.pledge_no.data).get? 2 = none := by
        rw [List.get?_eq_none]
        omega
      rw [hnone] at hparse
      simp [parseNat?] at hparse
    have hseq : nextSequence (some lp) = n + 1 := by
      simp only [nextSequence, if_pos hlen, hparse]
    simp [generate_pledge_no, hfind, hlatest, hseq]

/-- C9 witness: the suffix-plus-one clause instantiated on the
committed first pledge. -/
theorem claim9_witness :
    generate_pledge_no [⟨1, "GLD"⟩] [⟨1, 1, "GLD-2025-0001"⟩] 1 2025 =
      Except.ok ("GLD" ++ "-" ++ toString 2025 ++ "-" ++ zfill4 (1 + 1)) :=
  claim9_sequence_format.2.2.2 [⟨1, "GLD"⟩] [⟨1, 1, "GLD-2025-0001"⟩] 1 2025
    ⟨1, "GLD"⟩ ⟨1, 1, "GLD-2025-0001"⟩ 1 (by decide) (by decide) (by decide)

/-- Every Gregorian month has at least 28 days. -/
theorem daysInMonth_ge_28 (y m : ℕ) : 28 ≤ daysInMonth y m := by
  unfold daysInMonth
  split
  · split <;> omega
  · split <;> omega

/-- The month step never leaves the year range. -/
theorem nextMonthDate_year_ge {d : PyDate} (hy : 1 ≤ d.year) :
    1 ≤ (nextMonthDate d).year := by
  unfold nextMonthDate
  split
  · show 1 ≤ d.year + 1
    omega
  · show 1 ≤ d.year
    omega

/-- The stepped month is at least January. -/
theorem nextMonthDate_month_ge (d : PyDate) :
    1 ≤ (nextMonthDate d).month := by
  unfold nextMonthDate
  split
  · show (1 : ℕ) ≤ 1
    omega
  · show 1 ≤ d.month + 1
    omega

/-- The stepped month is at most December. -/
theorem nextMonthDate_month_le {d : PyDate} (hm2 : d.month ≤ 12) :
    (nextMonthDate d).month ≤ 12 := by
  unfold nextMonthDate
  split
  · show (1 : ℕ) ≤ 12
    omega
  · next h =>
    show d.month + 1 ≤ 12
    have hne : d.month ≠ 12 := by
      simpa using h
    omega

/-- The month step preserves the day of month. -/
theorem nextMonthDate_day (d : PyDate) : (nextMonthDate d).day = d.day := by
  unfold nextMonthDate
  split <;> rfl

/-- Stepping one month forward advances the month index by one. -/
theorem monthIdx_nextMonthDate (d : PyDate) :
    monthIdx (nextMonthDate d) = monthIdx d + 1 := by
  unfold monthIdx nextMonthDate
  split
  · next h =>
    have h12 : d.month = 12 := by
      simpa using h
    show 12 * (d.year + 1) + 1 = 12 * d.year + d.month + 1
    omega
  · show 12 * d.year + (d.month + 1) = 12 * d.year + d.month + 1
    omega

/-- A `<=`-comparison bounds the month index (with month ranges). -/
theorem pyDateLe_monthIdx {a b : PyDate} (h : pyDateLe a b = true)
    (ha : a.month ≤ 12) (hb : 1 ≤ b.month) : monthIdx a ≤ monthIdx b := by
  unfold monthIdx
  simp only [pyDateLe, Bool.or_eq_true, Bool.and_eq_true,
    decide_eq_true_eq] at h
  rcases h with h | ⟨h1, h | ⟨h2, _⟩⟩ <;> omega

/-- A failed `<`-comparison bounds the month index the other way. -/
theorem pyDateLt_false_monthIdx {a b : PyDate} (h : pyDateLt a b = false)
    (hb : b.month ≤ 12) (ha : 1 ≤ a.month) : monthIdx b ≤ monthIdx a := by
  unfold monthIdx
  have h1 : ¬(a.year < b.year) := by
    intro hy
    rw [pyDateLt] at h
    simp [hy] at h
  by_cases h2 : a.year = b.year
  · have h3 : ¬(a.month < b.month) := by
      intro hm
      rw [pyDateLt] at h
      simp [h2, hm] at h
    omega
  · omega

/-- The month step raises the year by at most one. -/
theorem nextMonthDate_year_le (d : PyDate) :
    (nextMonthDate d).year ≤ d.year + 1 := by
  unfold nextMonthDate
  split
  · show d.year + 1 ≤ d.year + 1
    omega
  · show d.year ≤ d.year + 1
    omega

/-- A `<=`-comparison bounds the year. -/
theorem pyDateLe_year_le {a b : PyDate} (h : pyDateLe a b = true) :
    a.year ≤ b.year := by
  simp only [pyDateLe, Bool.or_eq_true, Bool.and_eq_true,
    decide_eq_true_eq] at h
  rcases h with h | ⟨h1, _⟩ <;> omega

/-- Keeping a day of month at most 28 keeps the stepped date
constructible, provided the step does not leave Python's
`MAXYEAR = 9999` (a December date needs one more year of headroom). -/
theorem nextMonthDate_valid {d : PyDate} (hy : 1 ≤ d.year)
    (hy9999 : d.year ≤ 9999) (hm2 : d.month ≤ 12) (hd1 : 1 ≤ d.day)
    (hd28 : d.day ≤ 28) (hroll : d.month = 12 → d.year ≤ 9998) :
    isValidDate (nextMonthDate d) = true := by
  have hyear : (nextMonthDate d).year ≤ 9999 := by
    unfold nextMonthDate
    split
    · next h =>
      have h12 : d.month = 12 := by
        simpa using h
      show d.year + 1 ≤ 9999
      have := hroll h12
      omega
    · show d.year ≤ 9999
      omega
  simp only [isValidDate, Bool.and_eq_true, decide_eq_true_eq]
  refine ⟨⟨⟨⟨⟨nextMonthDate_year_ge hy, hyear⟩, nextMonthDate_month_ge d⟩,
    nextMonthDate_month_le hm2⟩, ?_⟩, ?_⟩
  · rw [nextMonthDate_day]
    omega
  · rw [nextMonthDate_day]
    exact le_trans hd28 (daysInMonth_ge_28 _ _)

/-- The accrual loop returns a value whenever the running date stays
on a day at most 28, the calculation year leaves one year of headroom
below `MAXYEAR`, and the fuel dominates the month distance. -/
theorem interestLoop_isSome (calcDate : PyDate) (loan rate : ℚ)
    (hcm1 : 1 ≤ calcDate.month) (hcy : calcDate.year ≤ 9998) :
    ∀ (fuel : ℕ) (current : PyDate) (acc : ℚ),
      1 ≤ current.year → current.year ≤ 9999 →
      1 ≤ current.month → current.month ≤ 12 →
      1 ≤ current.day → current.day ≤ 28 →
      0 < fuel → monthIdx calcDate + 2 ≤ monthIdx current + fuel →
      (interestLoop calcDate loan rate fuel current acc).isSome = true := by
  intro fuel
  induction fuel with
  | zero =>
    intro current acc _ _ _ _ _ _ hf _
    exact absurd hf (Nat.lt_irrefl 0)
  | succ n ih =>
    intro current acc hy hy9999 hm1 hm2 hd1 hd28 _ hfuel
    rw [interestLoop]
    by_cases hle : pyDateLe current calcDate = true
    · rw [if_pos hle]
      have hyle : current.year ≤ calcDate.year := pyDateLe_year_le hle
      have hvalid : isValidDate (nextMonthDate current) = true :=
        nextMonthDate_valid hy hy9999 hm2 hd1 hd28 (fun _ => by omega)
      rw [if_pos hvalid]
      by_cases hlt : pyDateLt calcDate (nextMonthDate current) = true
      · rw [if_pos hlt]
        rfl
      · rw [if_neg hlt]
        have hltf : pyDateLt calcDate (nextMonthDate current) = false :=
          Bool.eq_false_iff.mpr hlt
        have hny1 := nextMonthDate_year_le current
        have hnd := nextMonthDate_day current
        have hidx := monthIdx_nextMonthDate current
        have hfwd := pyDateLe_monthIdx hle hm2 hcm1
        have hback := pyDateLt_false_monthIdx hltf
          (nextMonthDate_month_le hm2) hcm1
        apply ih
        · exact nextMonthDate_year_ge hy
        · omega
        · exact nextMonthDate_month_ge current
        · exact nextMonthDate_month_le hm2
        · omega
        · omega
        · omega
        · omega
    · rw [if_neg hle]
      rfl

/-- C4 counterexample: the claim says the calculator is total for
every valid date pair, including a pledge day of 29/30/31.  For pledge
date 2025-01-31 and calculation date 2025-03-15 (a valid pair with
`calculation_date >= pledge_date`) the very first month step constructs
`date(2025, 2, 31)`, which raises `ValueError`: the call returns no
value. -/
theorem claim4_counterexample_day31_crashes :
    isValidDate ⟨2025, 1, 31⟩ = true ∧
    isValidDate ⟨2025, 3, 15⟩ = true ∧
    pyDateLe ⟨2025, 1, 31⟩ ⟨2025, 3, 15⟩ = true ∧
    calculate_interest_outstanding ⟨2025, 1, 31⟩ ⟨2025, 3, 15⟩
      100000 2 2000 0 = none := by
  refine ⟨by decide, by decide, by decide, by decide⟩

/-- C4 amended: the month-stepping handles the month/year rollover
only while every constructed date stays within Python's calendar; the
calculator is total for every valid pledge date whose day is at most
28, provided the stepping never leaves `MAXYEAR = 9999` (pledge date
not in December 9999 and calculation year at most 9998).  A pledge day
of 29, 30 or 31 can hit a too-short month (see the counterexample),
and a December 9999 pledge date overflows the year instead of
returning, as the second conjunct shows. -/
theorem claim4_amended_total_for_day_le_28 :
    (∀ (pledge_date calculation_date : PyDate) (loan rate fmi tir : ℚ),
      isValidDate pledge_date = true →
      isValidDate calculation_date = true →
      pledge_date.day ≤ 28 →
      calculation_date.year ≤ 9998 →
      ¬(pledge_date.year = 9999 ∧ pledge_date.month = 12) →
      (calculate_interest_outstanding pledge_date calculation_date loan rate
        fmi tir).isSome = true) ∧
    calculate_interest_outstanding ⟨9999, 12, 28⟩ ⟨9999, 12, 31⟩
      100000 2 2000 0 = none := by
  constructor
  · intro pledge_date calculation_date loan rate fmi tir hp hc hday hcy hroll
    simp only [isValidDate, Bool.and_eq_true, decide_eq_true_eq] at hp hc
    obtain ⟨⟨⟨⟨⟨hpy, hpy9999⟩, hpm1⟩, hpm2⟩, hpd1⟩, _⟩ := hp
    obtain ⟨⟨⟨⟨⟨_, _⟩, hcm1⟩, hcm2⟩, _⟩, _⟩ := hc
    have hvalid : isValidDate (nextMonthDate pledge_date) = true :=
      nextMonthDate_valid hpy hpy9999 hpm2 hpd1 hday
        (fun h12 => by omega)
    have hnd : (nextMonthDate pledge_date).day = pledge_date.day :=
      nextMonthDate_day pledge_date
    have hny1 := nextMonthDate_year_le pledge_date
    have hny9999 : (nextMonthDate pledge_date).year ≤ 9999 := by
      have hval := hvalid
      simp only [isValidDate, Bool.and_eq_true, decide_eq_true_eq] at hval
      exact hval.1.1.1.1.2
    have hloop := interestLoop_isSome calculation_date loan rate hcm1 hcy
      (interestLoopFuel calculation_date (nextMonthDate pledge_date))
      (nextMonthDate pledge_date) fmi (nextMonthDate_year_ge hpy) hny9999
      (nextMonthDate_month_ge pledge_date) (nextMonthDate_month_le hpm2)
      (by omega) (by omega)
      (by unfold interestLoopFuel; omega)
      (by unfold interestLoopFuel; omega)
    unfold calculate_interest_outstanding
    rw [if_pos hvalid]
    obtain ⟨v, hv⟩ := Option.isSome_iff_exists.mp hloop
    rw [hv]
    rfl
  · decide

/-- C4 amended witness: the totality statement instantiated on a
mid-month pledge date. -/
theorem claim4_amended_witness :
    (calculate_interest_outstanding ⟨2025, 1, 15⟩ ⟨2025, 3, 10⟩
      100000 2 2000 0).isSome = true :=
  claim4_amended_total_for_day_le_28.1 ⟨2025, 1, 15⟩ ⟨2025, 3, 10⟩
    100000 2 2000 0 (by decide) (by decide) (by decide) (by decide)
    (by decide)

/-- C5: in the final partial month the calculator adds exactly half a
month's interest (`loan_amount * rate / 100 * 0.5`) when the period has
at most 15 days and exactly a full month's interest
(`loan_amount * rate / 100`) from 16 days on; with
`loan_amount = 100000` and `rate = 2`, a 15-day partial period yields
1000 and a 16-day partial period yields 2000. -/
theorem claim5_partial_month_tier :
    (∀ (current calcDate : PyDate) (loan rate acc : ℚ) (fuel : ℕ),
      pyDateLe current calcDate = true →
      isValidDate (nextMonthDate current) = true →
      pyDateLt calcDate (nextMonthDate current) = true →
      interestLoop calcDate loan rate (fuel + 1) current acc =
        some (acc +
          (if (toOrdinal calcDate : ℤ) - (toOrdinal current : ℤ) + 1 ≤ 15
            then loan * rate / 100 * (1 / 2)
            else loan * rate / 100))) ∧
    calculate_interest_outstanding ⟨2025, 1, 1⟩ ⟨2025, 2, 15⟩
      100000 2 0 0 = some 1000 ∧
    calculate_interest_outstanding ⟨2025, 1, 1⟩ ⟨2025, 2, 16⟩
      100000 2 0 0 = some 2000 := by
  refine ⟨?_, ?_, ?_⟩
  · intro current calcDate loan rate acc fuel h1 h2 h3
    rw [interestLoop, if_pos h1, if_pos h2, if_pos h3]
  · norm_num [calculate_interest_outstanding, interestLoop,
      interestLoopFuel, monthIdx, nextMonthDate, isValidDate, daysInMonth,
      isLeapYear, pyDateLe, pyDateLt, toOrdinal, daysBeforeYear,
      daysBeforeMonth]
  · norm_num [calculate_interest_outstanding, interestLoop,
      interestLoopFuel, monthIdx, nextMonthDate, isValidDate, daysInMonth,
      isLeapYear, pyDateLe, pyDateLt, toOrdinal, daysBeforeYear,
      daysBeforeMonth]

/-- C5 witness: the partial-month step on the boundary period
2025-02-01 .. 2025-02-15. -/
theorem claim5_witness :
    interestLoop ⟨2025, 2, 15⟩ 100000 2 (0 + 1) ⟨2025, 2, 1⟩ 0 =
      some (0 +
        (if (toOrdinal ⟨2025, 2, 15⟩ : ℤ) - (toOrdinal ⟨2025, 2, 1⟩ : ℤ) + 1
            ≤ 15
          then 100000 * 2 / 100 * (1 / 2)
          else 100000 * 2 / 100)) :=
  claim5_partial_month_tier.1 ⟨2025, 2, 1⟩ ⟨2025, 2, 15⟩ 100000 2 0 0
    (by decide) (by decide) (by decide)

/-- C8: a bank-transfer request for an Active pledge whose
`ltv_percentage` lies outside [50, 95] is rejected with the invalid-LTV
error (and hence commits no ledger entries); when the LTV is inside the
interval and the bank resolves, any successful posting carries
`bank_loan_amount = valuation_amount * (ltv_percentage / 100)`. -/
theorem claim8_ltv_validation :
    (∀ (pledges : List PledgeStatusRow) (banks : List BankRow)
      (accounts : List COAccount) (request : TransferRequest) (uid : ℕ)
      (p : PledgeStatusRow),
      pledges.find? (fun q =>
        q.id == request.pledge_id && q.status == "Active") = some p →
      ¬(50 ≤ request.ltv_percentage ∧ request.ltv_percentage ≤ 95) →
      transfer_pledge_to_bank pledges banks accounts request uid =
        Except.error TransferError.InvalidLTV) ∧
    (∀ (pledges : List PledgeStatusRow) (banks : List BankRow)
      (accounts : List COAccount) (request : TransferRequest) (uid : ℕ)
      (p : PledgeStatusRow) (b : BankRow),
      pledges.find? (fun q =>
        q.id == request.pledge_id && q.status == "Active") = some p →
      (50 ≤ request.ltv_percentage ∧ request.ltv_percentage ≤ 95) →
      banks.find? (fun x =>
        x.id == request.bank_details_id && x.status) = some b →
      (∃ entries, transfer_pledge_to_bank pledges banks accounts request uid
        = Except.ok
            (request.valuation_amount * (request.ltv_percentage / 100),
              entries)) ∨
      transfer_pledge_to_bank pledges banks accounts request uid =
        Except.error TransferError.LedgerFailed) := by
  constructor
  · intro pledges banks accounts request uid p hfind hltv
    simp [transfer_pledge_to_bank, hfind, hltv]
  · intro pledges banks accounts request uid p b hfind hltv hbank
    cases hres : create_bank_pledge_ledger_entries accounts
        { id := 0
          bank_details_id := request.bank_details_id
          transfer_date := request.transfer_date
          valuation_amount := request.valuation_amount
          ltv_percentage := request.ltv_percentage
          bank_loan_amount :=
            request.valuation_amount * (request.ltv_percentage / 100)
          original_shop_loan := p.loan_amount
          outstanding_interest := p.first_month_interest } uid
        p.company_id with
    | success entries n td tc =>
      refine Or.inl ⟨entries, ?_⟩
      simp [transfer_pledge_to_bank, hfind, hbank, hltv.1, hltv.2, hres]
    | missingAccounts =>
      refine Or.inr ?_
      simp [transfer_pledge_to_bank, hfind, hbank, hltv.1, hltv.2, hres]
    | notBalanced td tc =>
      refine Or.inr ?_
      simp [transfer_pledge_to_bank, hfind, hbank, hltv.1, hltv.2, hres]

/-- C8 witness: the rejection at `ltv_percentage = 40` and the loan
formula at `ltv_percentage = 60` on valuation 10000. -/
theorem claim8_witness :
    transfer_pledge_to_bank [⟨1, 1, "Active", 8000, 500⟩] [⟨1, true⟩] []
      ⟨1, 1, ⟨2025, 6, 1⟩, 10000, 40⟩ 9 =
        Except.error TransferError.InvalidLTV ∧
    ((∃ entries, transfer_pledge_to_bank [⟨1, 1, "Active", 8000, 500⟩]
        [⟨1, true⟩] [⟨1, 1, "1051"⟩, ⟨2, 1, "1500"⟩, ⟨3, 1, "2100"⟩,
          ⟨4, 1, "2200"⟩] ⟨1, 1, ⟨2025, 6, 1⟩, 10000, 60⟩ 9 =
        Except.ok ((10000 : ℚ) * (60 / 100), entries)) ∨
      transfer_pledge_to_bank [⟨1, 1, "Active", 8000, 500⟩] [⟨1, true⟩]
        [⟨1, 1, "1051"⟩, ⟨2, 1, "1500"⟩, ⟨3, 1, "2100"⟩, ⟨4, 1, "2200"⟩]
        ⟨1, 1, ⟨2025, 6, 1⟩, 10000, 60⟩ 9 =
          Except.error TransferError.LedgerFailed) :=
  ⟨claim8_ltv_validation.1 [⟨1, 1, "Active", 8000, 500⟩] [⟨1, true⟩] []
      ⟨1, 1, ⟨2025, 6, 1⟩, 10000, 40⟩ 9 ⟨1, 1, "Active", 8000, 500⟩
      (by decide) (by decide),
   claim8_ltv_validation.2 [⟨1, 1, "Active", 8000, 500⟩] [⟨1, true⟩]
      [⟨1, 1, "1051"⟩, ⟨2, 1, "1500"⟩, ⟨3, 1, "2100"⟩, ⟨4, 1, "2200"⟩]
      ⟨1, 1, ⟨2025, 6, 1⟩, 10000, 60⟩ 9 ⟨1, 1, "Active", 8000, 500⟩
      ⟨1, true⟩ (by decide) (by decide) (by decide)⟩

/-- C10: both bank posting routines build every ledger row as one half
of a debit/credit pair of equal amount under a common guard, so the
debit and credit totals reaching the defensive balance check are always
equal and the `"Ledger entries not balanced"` branch is unreachable. -/
theorem claim10_bank_postings_balanced_by_construction :
    (∀ (accounts : List COAccount) (bank_pledge : BankPledgeRec)
      (created_by company_id : ℕ) (td tc : ℚ),
      create_bank_pledge_ledger_entries accounts bank_pledge created_by
        company_id ≠ BPLedgerResult.notBalanced td tc) ∧
    (∀ (accounts : List COAccount) (redemption : BankRedemptionRec)
      (bank_pledge : Option BankPledgeRec) (created_by company_id : ℕ)
      (td tc : ℚ),
      create_bank_redemption_ledger_entries accounts redemption bank_pledge
        created_by company_id ≠ BPLedgerResult.notBalanced td tc) := by
  constructor
  · intro accounts bank_pledge created_by company_id td tc h
    unfold create_bank_pledge_ledger_entries at h
    split at h
    · simp at h
    · simp at h
  · intro accounts redemption bank_pledge created_by company_id td tc h
    unfold create_bank_redemption_ledger_entries at h
    split at h
    · simp at h
    · simp at h

end PledgeSystem
